import Mathlib

/-!
Verification development for the fdapp-frontend order-sync and notification
subsystem.  The definitions below are a shallow embedding, translated
function-by-function from the TypeScript source:

* `useNotification` hook (permission negotiation, browser notifications,
  toast queue, order-status notifications);
* the `Dashboard` component (`fetchOrders`, `handleStatusUpdate`, the
  visibility handler and the 10-second auto-refresh interval);
* `OrderDetailModal`.

Effectful browser primitives (the backend response, `Date.now()`,
`Math.random()`'s rendered suffix, the OS permission-request result) are
passed to each operation as explicit inputs.  React `useState` cells are
fields of an explicit state record, and one source event-handler
invocation becomes one total Lean function from pre-state and inputs to
post-state plus observable outputs (delivered notifications, log lines,
a propagated exception when the source code lets one escape).
-/

namespace Fdapp

/-- Severity of a toast, the `type` field of `ToastNotification` in the
source (`'success' | 'info' | 'warning' | 'error'`). -/
inductive ToastType where
  | success
  | info
  | warning
  | error
deriving DecidableEq, Repr

/-- The browser `NotificationPermission` tri-state. -/
inductive NotifPermission where
  | default
  | granted
  | denied
deriving DecidableEq, Repr

/-- `NotificationOptions` of the hook: arguments to `showBrowserNotification`. -/
structure NotificationOptions where
  title : String
  body : String
  icon : Option String := none
  tag : Option String := none
  requireInteraction : Bool := false
  timeout : Option Int := none
deriving DecidableEq, Repr

/-- Argument record of `showToast` (a `ToastNotification` without the id). -/
structure ToastSpec where
  type : ToastType
  title : String
  message : String
  timeout : Option Int := none
deriving DecidableEq, Repr

/-- A queued toast, after `showToast` assigned the id and defaulted the
timeout (`timeout: toast.timeout || 5000`). -/
structure ToastNotification where
  id : String
  type : ToastType
  title : String
  message : String
  timeout : Int
deriving DecidableEq, Repr

/-! ### Decimal rendering of `Date.now()`

`showToast` builds the toast id as
`Date.now().toString() + Math.random().toString(36).substr(2, 9)`.
We embed `Number.prototype.toString` on naturals by a fuel-indexed
little-endian digit expansion (the fuel `n` dominates the number of
divisions by ten), so that the definition reduces inside the kernel. -/

/-- Little-endian base-10 digits of `n`, with explicit fuel. -/
def natDecimalAux : Nat → Nat → List Nat
  | 0, _ => []
  | _ + 1, 0 => []
  | fuel + 1, n + 1 => (n + 1) % 10 :: natDecimalAux fuel ((n + 1) / 10)

/-- Little-endian base-10 digits of `n`. -/
def natDigits (n : Nat) : List Nat :=
  natDecimalAux n n

/-- Inverse of `natDigits`: evaluate a little-endian digit list. -/
def decodeNat (l : List Nat) : Nat :=
  l.foldr (fun d acc => d + 10 * acc) 0

/-- One decimal digit as a character. -/
def digitChar (d : Nat) : Char :=
  match d with
  | 0 => '0'
  | 1 => '1'
  | 2 => '2'
  | 3 => '3'
  | 4 => '4'
  | 5 => '5'
  | 6 => '6'
  | 7 => '7'
  | 8 => '8'
  | 9 => '9'
  | _ => '*'

/-- Inverse of `digitChar` on decimal digits. -/
def charToDigit (c : Char) : Nat :=
  match c with
  | '0' => 0
  | '1' => 1
  | '2' => 2
  | '3' => 3
  | '4' => 4
  | '5' => 5
  | '6' => 6
  | '7' => 7
  | '8' => 8
  | '9' => 9
  | _ => 10

/-- The decimal string `n.toString()` of JavaScript. -/
def natDecimalRepr (n : Nat) : String :=
  if n = 0 then "0" else String.mk (((natDigits n).map digitChar).reverse)

/-- Read a decimal string back into a natural number. -/
def decodeStr (s : String) : Nat :=
  decodeNat ((s.data.map charToDigit).reverse)

/-- The toast id built by `showToast`:
`Date.now().toString() + Math.random().toString(36).substr(2, 9)`.
`now` is the millisecond clock reading, `rand` the (up to nine character)
base-36 suffix the call observed from `Math.random()`. -/
def genToastId (now : Nat) (rand : String) : String :=
  natDecimalRepr now ++ rand

/-- The id sequence produced by a sequence of `showToast` calls, each call
described by the `(Date.now(), random-suffix)` pair it observed. -/
def toastIdsOf (env : List (Nat × String)) : List String :=
  env.map (fun p => genToastId p.1 p.2)

/-- JavaScript `toast.timeout || 5000`: `undefined` and `0` are falsy and
fall back to the 5000 ms default; every other number (negative included)
is kept. -/
def jsOrDefault (t : Option Int) : Int :=
  match t with
  | none => 5000
  | some v => if v = 0 then 5000 else v

/-- Result of one `showToast` call: the updated toast queue, the id handed
back to the caller, and the delay of the scheduled `removeToast` timer
(`none` when no automatic removal was scheduled). -/
structure ShowToastResult where
  toasts : List ToastNotification
  newId : String
  removalDelay : Option Int
deriving DecidableEq, Repr

/-- `showToast` of `useNotification`: assigns the generated id, defaults the
timeout with `toast.timeout || 5000`, appends the toast to the queue, and
schedules `removeToast` after `timeout` ms when
`newToast.timeout && newToast.timeout > 0`. -/
def showToast (toasts : List ToastNotification) (spec : ToastSpec)
    (now : Nat) (rand : String) : ShowToastResult :=
  let id := genToastId now rand
  let t := jsOrDefault spec.timeout
  let newToast : ToastNotification :=
    { id := id, type := spec.type, title := spec.title
      message := spec.message, timeout := t }
  { toasts := toasts ++ [newToast]
    newId := id
    removalDelay := if t ≠ 0 ∧ 0 < t then some t else none }

/-- `removeToast`: `setToasts(prev => prev.filter(toast => toast.id !== id))`. -/
def removeToast (toasts : List ToastNotification) (id : String) :
    List ToastNotification :=
  toasts.filter (fun toast => toast.id != id)

/-! ### `showBrowserNotification` and the permission state machine

`showBrowserNotification` is a `useCallback` closure over the React state
variable `permission`.  Within one call chain the captured `permission`
binding never changes: `setPermission` only affects later renders, and the
recursive call `return showBrowserNotification(options)` resolves to the
same render's closure.  The embedding therefore threads the captured
`permission` value unchanged through the recursion, and passes the value
that `Notification.requestPermission()` resolves to (`osResult`, constant
for a stable OS-level decision) as an explicit input.  `fuel` bounds the
number of unfoldings; `terminated = false` reports that the chain was
still running when the fuel ran out. -/

/-- Observable outcome of one `showBrowserNotification` call chain:
titles of the OS notifications constructed, number of
`Notification.requestPermission()` calls made, and whether the chain
terminated within the allotted fuel. -/
structure BrowserNotifRun where
  delivered : List String
  requests : Nat
  terminated : Bool
deriving DecidableEq, Repr

/-- `showBrowserNotification` of `useNotification`, with the closure's
captured `permission` and the OS reply to permission requests explicit. -/
def showBrowserNotification :
    Nat → NotifPermission → NotifPermission → String → BrowserNotifRun
  | 0, _, _, _ => { delivered := [], requests := 0, terminated := false }
  | _ + 1, .granted, _, title =>
      { delivered := [title], requests := 0, terminated := true }
  | _ + 1, .denied, _, _ =>
      { delivered := [], requests := 0, terminated := true }
  | fuel + 1, .default, osResult, title =>
      match osResult with
      | .granted =>
          -- `const newPermission = await requestPermission();` resolved to
          -- granted, so the code retries `showBrowserNotification(options)`;
          -- the retry still reads the stale captured `permission`.
          let r := showBrowserNotification fuel .default osResult title
          { delivered := r.delivered, requests := r.requests + 1
            terminated := r.terminated }
      | _ =>
          { delivered := [], requests := 1, terminated := true }

/-! ### `notifyOrderStatusChange` -/

/-- One row of the `statusMessages` table. -/
structure StatusInfo where
  title : String
  emoji : String
  color : ToastType
deriving DecidableEq, Repr

/-- The fixed `statusMessages` table of `notifyOrderStatusChange`. -/
def statusMessagesTable : List (String × StatusInfo) :=
  [("접수완료", { title := "주문 접수 완료", emoji := "📦", color := .info }),
   ("배송준비", { title := "배송 준비 중", emoji := "📋", color := .info }),
   ("배송중", { title := "배송 시작", emoji := "🚚", color := .info }),
   ("배송완료", { title := "배송 완료", emoji := "✅", color := .success }),
   ("취소", { title := "주문 취소", emoji := "❌", color := .warning }),
   ("반송", { title := "주문 반송", emoji := "↩️", color := .error })]

/-- `statusMessages[orderInfo.status] || {title:'상태 변경', emoji:'📋', color:'info'}`. -/
def statusInfoFor (status : String) : StatusInfo :=
  match statusMessagesTable.lookup status with
  | some si => si
  | none => { title := "상태 변경", emoji := "📋", color := .info }

/-- The argument record of `notifyOrderStatusChange`. -/
structure OrderInfo where
  orderId : Nat
  status : String
  customerName : Option String := none
  trackingNumber : Option String := none
deriving DecidableEq, Repr

/-- The pure content computation of `notifyOrderStatusChange`: the browser
notification options and the toast it emits for the given order info. -/
def notifyOrderStatusChange (oi : OrderInfo) : NotificationOptions × ToastSpec :=
  let statusInfo := statusInfoFor oi.status
  let message :=
    match oi.trackingNumber with
    | some tn => "운송장: " ++ tn
    | none => "주문번호: " ++ natDecimalRepr oi.orderId
  ({ title := statusInfo.emoji ++ " " ++ statusInfo.title
     body := (match oi.customerName with | some c => c | none => "고객")
       ++ "님의 주문이 " ++ oi.status ++ " 상태로 변경되었습니다.\n" ++ message
     tag := some ("order-" ++ natDecimalRepr oi.orderId)
     requireInteraction := oi.status == "배송완료"
     timeout := some 8000 },
   { type := statusInfo.color
     title := statusInfo.title
     message := "주문 #" ++ natDecimalRepr oi.orderId ++ "이 " ++ oi.status
       ++ " 상태로 변경되었습니다."
     timeout := some 5000 })

/-! ### Dashboard: orders, stats, refresh and status mutation

The `Dashboard` component keeps `orders` and `stats` in React state and
refreshes both from the backend.  We embed the fields of `ShippingOrder`
that the dashboard logic reads or displays; the remaining form fields are
inert payload for every operation modelled here. -/

/-- A shipping order as held in the dashboard snapshot. -/
structure ShippingOrder where
  id : Nat
  sender_name : String
  receiver_name : String
  package_type : Option String := none
  status : String
  tracking_number : Option String := none
  created_at : String := ""
  updated_at : String := ""
deriving DecidableEq, Repr

/-- The `DashboardStats` record: total plus one counter per recognized
status (접수완료 received, 배송준비 preparing, 배송중 inTransit,
배송완료 delivered, 취소 cancelled, 반송 returned). -/
structure DashboardStats where
  total : Nat
  received : Nat
  preparing : Nat
  inTransit : Nat
  delivered : Nat
  cancelled : Nat
  returned : Nat
deriving DecidableEq, Repr

/-- The `newStats` computation inside `fetchOrders`:
`total` is `ordersData.length` and each counter is
`ordersData.filter(o => o.status === '...').length`. -/
def computeStats (ordersData : List ShippingOrder) : DashboardStats :=
  { total := ordersData.length
    received := (ordersData.filter (fun o => o.status == "접수완료")).length
    preparing := (ordersData.filter (fun o => o.status == "배송준비")).length
    inTransit := (ordersData.filter (fun o => o.status == "배송중")).length
    delivered := (ordersData.filter (fun o => o.status == "배송완료")).length
    cancelled := (ordersData.filter (fun o => o.status == "취소")).length
    returned := (ordersData.filter (fun o => o.status == "반송")).length }

/-- The React state of `Dashboard` that the refresh and mutation handlers
touch. -/
structure DashboardState where
  orders : List ShippingOrder
  stats : DashboardStats
  selectedOrder : Option ShippingOrder
  loading : Bool
  isRefreshing : Bool
  lastUpdated : Nat
deriving DecidableEq, Repr

/-- Outcome of one `fetchOrders` invocation: the post-state, the
`console.error` lines emitted, and the exception it let escape (always
`none`: the `try`/`catch`/`finally` swallows every failure). -/
structure FetchOutcome where
  state : DashboardState
  logs : List String
  thrown : Option String
deriving DecidableEq, Repr

/-- `fetchOrders(showRefreshIndicator)` of `Dashboard`.  `response` is what
`api.get('/shipping/orders')` produced: the order list on success, the
error on a network/backend failure.  On success the snapshot is replaced
by the response and the stats recomputed from the same list; on failure
the snapshot is untouched and the error is only logged.  The `finally`
clears both progress flags either way. -/
def fetchOrders (_showRefreshIndicator : Bool) (s : DashboardState)
    (response : Except String (List ShippingOrder)) (now : Nat) :
    FetchOutcome :=
  match response with
  | .ok ordersData =>
      { state :=
          { s with
            orders := ordersData
            stats := computeStats ordersData
            lastUpdated := now
            loading := false
            isRefreshing := false }
        logs := []
        thrown := none }
  | .error e =>
      { state := { s with loading := false, isRefreshing := false }
        logs := ["주문 목록을 가져오는 중 오류 발생: " ++ e]
        thrown := none }

/-- The record `handleStatusUpdate` passes to `onOrderStatusChange`. -/
structure OrderStatusChangeInfo where
  orderId : Nat
  status : String
  customerName : Option String
  trackingNumber : Option String
deriving DecidableEq, Repr

/-- Outcome of one `handleStatusUpdate` invocation. -/
structure StatusUpdateOutcome where
  state : DashboardState
  notifications : List OrderStatusChangeInfo
  logs : List String
  thrown : Option String
deriving DecidableEq, Repr

/-- `handleStatusUpdate(orderId, newStatus)` of `Dashboard`.
`updateResponse` is the result of `shippingAPI.updateOrderStatus`;
`listResponse` is what the follow-up `fetchOrders(true)` refetch received
from the backend.  On success the code awaits a full refetch, then patches
`selectedOrder` when its id matches, then fires `onOrderStatusChange`
(when a selected order exists).  On failure the `catch` only logs; nothing
escapes to the caller and no state field is touched. -/
def handleStatusUpdate (orderId : Nat) (newStatus : String)
    (s : DashboardState) (updateResponse : Except String Unit)
    (listResponse : Except String (List ShippingOrder)) (now : Nat) :
    StatusUpdateOutcome :=
  match updateResponse with
  | .error e =>
      { state := s
        notifications := []
        logs := ["상태 업데이트 실패: " ++ e]
        thrown := none }
  | .ok _ =>
      let f := fetchOrders true s listResponse now
      let s1 := f.state
      let s2 :=
        match s.selectedOrder with
        | some sel =>
            if sel.id == orderId then
              { s1 with selectedOrder := some { sel with status := newStatus } }
            else s1
        | none => s1
      let notifs :=
        match s.selectedOrder with
        | some sel =>
            [{ orderId := orderId, status := newStatus
               customerName := some sel.receiver_name
               trackingNumber := sel.tracking_number }]
        | none => []
      { state := s2, notifications := notifs, logs := f.logs, thrown := none }

/-! ### Scheduler: visibility handling and the auto-refresh interval

`visibilityRef` mirrors `!document.hidden`; `isAutoRefreshEnabled` gates
the interval.  A `tick` is one firing of the 10-second interval callback
(it exists only while enabled and checks `visibilityRef` before
refreshing); a `visibility hidden` event is one `visibilitychange`
delivery with the new `document.hidden` value. -/

/-- Scheduler-relevant dashboard state. -/
structure SchedState where
  enabled : Bool
  visible : Bool
deriving DecidableEq, Repr

/-- Events reaching the scheduler logic. -/
inductive SchedEvent where
  | tick
  | visibility (hidden : Bool)
deriving DecidableEq, Repr

/-- One event step; the second component counts the `fetchOrders(true)`
refreshes this event fired. -/
def stepSched (s : SchedState) : SchedEvent → SchedState × Nat
  | .tick => (s, if s.enabled && s.visible then 1 else 0)
  | .visibility hidden =>
      ({ s with visible := !hidden }, if !hidden && s.enabled then 1 else 0)

/-- Run a sequence of scheduler events, accumulating the refresh count. -/
def runSched (s : SchedState) : List SchedEvent → SchedState × Nat
  | [] => (s, 0)
  | e :: es =>
      let (s1, n1) := stepSched s e
      let (s2, n2) := runSched s1 es
      (s2, n1 + n2)

/-! ### Concrete fixtures for counterexamples and witnesses -/

/-- Order 1: selected in the modal, status 접수완료. -/
def o1 : ShippingOrder :=
  { id := 1, sender_name := "김철수", receiver_name := "이영희"
    status := "접수완료", tracking_number := some "TRK100"
    created_at := "2024-01-01", updated_at := "2024-01-01" }

/-- Order 2: untouched by the user's mutation, status 접수완료. -/
def o2 : ShippingOrder :=
  { id := 2, sender_name := "박민수", receiver_name := "최지우"
    status := "접수완료", created_at := "2024-01-02"
    updated_at := "2024-01-02" }

/-- Order 2 as a concurrent writer left it on the server: status 취소. -/
def o2x : ShippingOrder :=
  { o2 with status := "취소" }

/-- An order whose status string is outside the recognized set. -/
def oUnknown : ShippingOrder :=
  { id := 3, sender_name := "정우성", receiver_name := "한소희"
    status := "파손" }

/-- Dashboard state holding `[o1, o2]` with order 1 selected. -/
def s0 : DashboardState :=
  { orders := [o1, o2], stats := computeStats [o1, o2]
    selectedOrder := some o1, loading := false, isRefreshing := false
    lastUpdated := 0 }

/-! ### Helper lemmas: decimal rendering round-trips -/

/-- Evaluating the fuel-indexed digit expansion recovers the number. -/
theorem decodeNat_natDecimalAux :
    ∀ (fuel n : Nat), n ≤ fuel → decodeNat (natDecimalAux fuel n) = n := by
  intro fuel
  induction fuel with
  | zero =>
      intro n hn
      interval_cases n
      rfl
  | succ fuel ih =>
      intro n hn
      cases n with
      | zero => rfl
      | succ m =>
          have hdiv : (m + 1) / 10 ≤ fuel := by
            have := Nat.div_lt_self (Nat.succ_pos m) (by omega : 1 < 10)
            omega
          have hstep :
              decodeNat (natDecimalAux (fuel + 1) (m + 1))
                = (m + 1) % 10 + 10 * decodeNat (natDecimalAux fuel ((m + 1) / 10)) := rfl
          rw [hstep, ih _ hdiv, Nat.mod_add_div]

/-- Every entry of the digit expansion is a decimal digit. -/
theorem natDecimalAux_lt :
    ∀ (fuel n d : Nat), d ∈ natDecimalAux fuel n → d < 10 := by
  intro fuel
  induction fuel with
  | zero =>
      intro n d h
      simp [natDecimalAux] at h
  | succ fuel ih =>
      intro n d h
      cases n with
      | zero => simp [natDecimalAux] at h
      | succ m =>
          simp only [natDecimalAux, List.mem_cons] at h
          rcases h with h | h
          · subst h
            exact Nat.mod_lt _ (by omega)
          · exact ih _ _ h

/-- `charToDigit` inverts `digitChar` on decimal digits. -/
theorem charToDigit_digitChar : ∀ d, d < 10 → charToDigit (digitChar d) = d := by
  decide

/-- Mapping to characters and back is the identity on digit lists. -/
theorem map_charToDigit_digitChar :
    ∀ (l : List Nat), (∀ d ∈ l, d < 10) → (l.map digitChar).map charToDigit = l := by
  intro l
  induction l with
  | nil => intro _; rfl
  | cons a t ih =>
      intro h
      simp only [List.map_cons, List.cons.injEq]
      exact ⟨charToDigit_digitChar a (h a (by simp)),
             ih (fun d hd => h d (by simp [hd]))⟩

/-- Reading the rendered decimal string back yields the original number. -/
theorem decodeStr_natDecimalRepr : ∀ n, decodeStr (natDecimalRepr n) = n := by
  intro n
  by_cases hn : n = 0
  · subst hn
    rfl
  · unfold natDecimalRepr
    rw [if_neg hn]
    show decodeNat
        (((((natDigits n).map digitChar).reverse).map charToDigit).reverse) = n
    rw [List.map_reverse, List.reverse_reverse,
        map_charToDigit_digitChar (natDigits n) (fun d hd => natDecimalAux_lt n n d hd)]
    exact decodeNat_natDecimalAux n n (Nat.le_refl n)

/-- The JavaScript decimal rendering of a natural number is injective. -/
theorem natDecimalRepr_injective :
    ∀ (m n : Nat), natDecimalRepr m = natDecimalRepr n → m = n := by
  intro m n h
  have hm := decodeStr_natDecimalRepr m
  rw [h, decodeStr_natDecimalRepr] at hm
  exact hm.symm

/-! ### Claim theorems -/

/-- Claim C1 (code bug): when `showBrowserNotification` is called while the
closure's `permission` is `default` and `requestPermission()` resolves to
`granted`, the retry `return showBrowserNotification(options)` still reads
the stale captured `permission` (React state updates do not mutate the
binding of the running closure), so for every recursion budget the chain
has delivered no OS notification, has issued one permission request per
unfolding, and has not terminated — contradicting the claimed
"requests permission exactly once, retries delivery exactly once, delivers
exactly one OS notification with the given title". -/
theorem C1_showBrowserNotification_staleClosureLoops :
    ∀ (fuel : Nat) (title : String),
      showBrowserNotification fuel NotifPermission.default NotifPermission.granted title
        = { delivered := [], requests := fuel, terminated := false } := by
  intro fuel
  induction fuel with
  | zero => intro title; rfl
  | succ fuel ih =>
      intro title
      simp [showBrowserNotification, ih]

/-- Claim C2, counterexample: updating order 1 to 배송중 succeeds, yet the
snapshot produced by the handler (a full refetch, not a local patch) still
shows order 1 with its old status 접수완료 when the backend list response
is stale, and order 2 — untouched by the mutation — changed from 접수완료
to 취소 because the refetch replaced it wholesale.  Both conjuncts of the
claim (new value visible immediately; every other order untouched) fail at
this input. -/
theorem C2_counterexample :
    ((handleStatusUpdate 1 "배송중" s0 (Except.ok ()) (Except.ok [o1, o2x]) 5).state.orders.map
        (fun o => (o.id, o.status)) = [(1, "접수완료"), (2, "취소")])
    ∧ (s0.orders.map (fun o => (o.id, o.status))
        = [(1, "접수완료"), (2, "접수완료")]) :=
  ⟨rfl, rfl⟩

/-- Claim C2 as amended: on a successful status update the handler awaits a
full out-of-band refetch — the snapshot becomes exactly the backend's list
response with the counts recomputed from that same list; only the
selected-order view is patched in place with the new status (when its id
matches), and one notification is dispatched when a selected order
exists. -/
theorem C2_amended_refetchReplacesSnapshot :
    ∀ (orderId : Nat) (newStatus : String) (s : DashboardState)
      (L : List ShippingOrder) (now : Nat),
      (handleStatusUpdate orderId newStatus s (Except.ok ()) (Except.ok L) now).state.orders = L
      ∧ (handleStatusUpdate orderId newStatus s (Except.ok ()) (Except.ok L) now).state.stats
          = computeStats L
      ∧ (s.selectedOrder = none →
          (handleStatusUpdate orderId newStatus s (Except.ok ()) (Except.ok L) now).state.selectedOrder = none
          ∧ (handleStatusUpdate orderId newStatus s (Except.ok ()) (Except.ok L) now).notifications = [])
      ∧ (∀ sel, s.selectedOrder = some sel →
          (handleStatusUpdate orderId newStatus s (Except.ok ()) (Except.ok L) now).notifications
            = [{ orderId := orderId, status := newStatus
                 customerName := some sel.receiver_name
                 trackingNumber := sel.tracking_number }]
          ∧ (sel.id = orderId →
              (handleStatusUpdate orderId newStatus s (Except.ok ()) (Except.ok L) now).state.selectedOrder
                = some { sel with status := newStatus })) := by
  intro orderId newStatus s L now
  refine ⟨?_, ?_, ?_, ?_⟩
  · cases hsel : s.selectedOrder with
    | none => simp [handleStatusUpdate, fetchOrders, hsel]
    | some sel =>
        simp only [handleStatusUpdate, fetchOrders, hsel]
        split <;> rfl
  · cases hsel : s.selectedOrder with
    | none => simp [handleStatusUpdate, fetchOrders, hsel]
    | some sel =>
        simp only [handleStatusUpdate, fetchOrders, hsel]
        split <;> rfl
  · intro hsel
    simp [handleStatusUpdate, fetchOrders, hsel]
  · intro sel hsel
    constructor
    · simp [handleStatusUpdate, fetchOrders, hsel]
    · intro hid
      simp [handleStatusUpdate, fetchOrders, hsel, hid]

/-- Witness for the amended C2 at a concrete input: with order 1 selected
and the backend refetch returning `[o1, o2x]`, the handler dispatches the
notification for order 1 and patches the selected-order view to 배송중. -/
theorem C2_amended_witness :
    s0.selectedOrder = some o1
    ∧ (handleStatusUpdate 1 "배송중" s0 (Except.ok ()) (Except.ok [o1, o2x]) 5).notifications
        = [{ orderId := 1, status := "배송중"
             customerName := some o1.receiver_name
             trackingNumber := o1.tracking_number }]
    ∧ o1.id = 1
    ∧ (handleStatusUpdate 1 "배송중" s0 (Except.ok ()) (Except.ok [o1, o2x]) 5).state.selectedOrder
        = some { o1 with status := "배송중" } := by
  have h := (C2_amended_refetchReplacesSnapshot 1 "배송중" s0 [o1, o2x] 5).2.2.2 o1 rfl
  exact ⟨rfl, h.1, rfl, h.2 rfl⟩

/-- Claim C3, counterexample: a toast requested with timeout exactly 0 does
not persist — `toast.timeout || 5000` treats 0 as unspecified, so the toast
is stored with timeout 5000 and automatic removal is scheduled after
5000 ms, contradicting "timeout ≤ 0 (including exactly 0) means no
automatic removal is ever scheduled". -/
theorem C3_counterexample :
    (showToast [] { type := .info, title := "T", message := "M", timeout := some 0 }
        1000 "abcdefghi").removalDelay = some 5000
    ∧ ((showToast [] { type := .info, title := "T", message := "M", timeout := some 0 }
        1000 "abcdefghi").toasts.map (fun t => t.timeout)) = [5000] :=
  ⟨rfl, rfl⟩

/-- Claim C3 as amended: a toast with a strictly negative requested timeout
is appended with that timeout and no automatic removal is scheduled (it
persists until explicit removal); a requested timeout of exactly 0 is
treated like an unspecified one — the effective timeout is 5000 ms and
automatic removal is scheduled; an unspecified timeout defaults to
5000 ms. -/
theorem C3_amended_negativePersistsZeroDefaults :
    ∀ (toasts : List ToastNotification) (ty : ToastType) (ti me : String)
      (now : Nat) (rand : String) (v : Int), v < 0 →
      ((showToast toasts { type := ty, title := ti, message := me, timeout := some v }
          now rand).removalDelay = none
       ∧ (showToast toasts { type := ty, title := ti, message := me, timeout := some v }
            now rand).toasts.map (fun t => t.timeout)
          = toasts.map (fun t => t.timeout) ++ [v])
      ∧ (showToast toasts { type := ty, title := ti, message := me, timeout := some 0 }
          now rand).removalDelay = some 5000
      ∧ ((showToast toasts { type := ty, title := ti, message := me, timeout := none }
            now rand).removalDelay = some 5000
         ∧ (showToast toasts { type := ty, title := ti, message := me, timeout := none }
              now rand).toasts.map (fun t => t.timeout)
            = toasts.map (fun t => t.timeout) ++ [5000]) := by
  intro toasts ty ti me now rand v hv
  have hvz : ¬ v = 0 := by omega
  refine ⟨⟨?_, ?_⟩, ?_, ?_, ?_⟩
  · simp only [showToast, jsOrDefault]
    rw [if_neg hvz, if_neg]
    rintro ⟨-, h2⟩
    omega
  · simp only [showToast, jsOrDefault, List.map_append]
    rw [if_neg hvz]
    simp
  · rfl
  · rfl
  · simp [showToast, jsOrDefault]

/-- Witness for the amended C3 at timeout −1: no removal is scheduled. -/
theorem C3_amended_witness :
    ((-1 : Int) < 0)
    ∧ (showToast [] { type := .info, title := "T", message := "M", timeout := some (-1) }
        1000 "abcdefghi").removalDelay = none := by
  have h := C3_amended_negativePersistsZeroDefaults [] .info "T" "M" 1000 "abcdefghi"
    (-1) (by decide)
  exact ⟨by decide, h.1.1⟩

/-- Claim C4, counterexample: when the status-update backend call fails, the
handler's `catch` swallows the error — the call resolves normally
(`thrown = none`), only a `console.error` line is produced, so nothing is
propagated synchronously to the caller (the `catch` in
`OrderDetailModal.handleStatusChange` can never observe it). -/
theorem C4_counterexample :
    (handleStatusUpdate 1 "배송중" s0 (Except.error "Network Error") (Except.ok []) 0).thrown
        = none
    ∧ (handleStatusUpdate 1 "배송중" s0 (Except.error "Network Error") (Except.ok []) 0).logs
        = ["상태 업데이트 실패: Network Error"] :=
  ⟨rfl, rfl⟩

/-- Claim C4 as amended: when the status-update backend call fails, the
error is caught inside the handler and only logged — it is not propagated
to the caller — and the in-memory snapshot (orders, stats, selected order,
all state fields) is left completely unmodified; no optimistic mutation
occurs and no notification is dispatched. -/
theorem C4_amended_failureSwallowedSnapshotUntouched :
    ∀ (orderId : Nat) (newStatus : String) (s : DashboardState) (e : String)
      (listResponse : Except String (List ShippingOrder)) (now : Nat),
      handleStatusUpdate orderId newStatus s (Except.error e) listResponse now
        = { state := s, notifications := []
            logs := ["상태 업데이트 실패: " ++ e], thrown := none } := by
  intro orderId newStatus s e listResponse now
  rfl

/-- Claim C5: a scheduled tick never refreshes while the page is hidden
(the tick handler checks `visibilityRef` first); a hidden→visible
`visibilitychange` while auto-refresh is enabled fires exactly one
immediate refresh; and in the concrete 35-second scenario — hide, three
elapsed tick windows, then show — exactly one refresh fires in total. -/
theorem C5_visibilityGatedRefresh :
    (∀ en : Bool, (stepSched { enabled := en, visible := false } SchedEvent.tick).2 = 0)
    ∧ (stepSched { enabled := true, visible := false } (SchedEvent.visibility false))
        = ({ enabled := true, visible := true }, 1)
    ∧ runSched { enabled := true, visible := true }
        [SchedEvent.visibility true, SchedEvent.tick, SchedEvent.tick,
         SchedEvent.tick, SchedEvent.visibility false]
        = ({ enabled := true, visible := true }, 1) := by
  refine ⟨?_, rfl, rfl⟩
  intro en
  simp [stepSched]

/-- Claim C6: when the backend fetch of a refresh fails, the previous
snapshot — the order list, every derived count, the selected order, and
the last-updated stamp — is retained unchanged; the error is only logged
(the outcome carries no propagated exception), and the embedding consumes
exactly one backend response per refresh, so no retry happens before the
next scheduled tick. -/
theorem C6_fetchFailureRetainsSnapshot :
    ∀ (flag : Bool) (s : DashboardState) (e : String) (now : Nat),
      (fetchOrders flag s (Except.error e) now).state.orders = s.orders
      ∧ (fetchOrders flag s (Except.error e) now).state.stats = s.stats
      ∧ (fetchOrders flag s (Except.error e) now).state.selectedOrder = s.selectedOrder
      ∧ (fetchOrders flag s (Except.error e) now).state.lastUpdated = s.lastUpdated
      ∧ (fetchOrders flag s (Except.error e) now).thrown = none
      ∧ (fetchOrders flag s (Except.error e) now).logs
          = ["주문 목록을 가져오는 중 오류 발생: " ++ e] := by
  intro flag s e now
  exact ⟨rfl, rfl, rfl, rfl, rfl, rfl⟩

/-- Claim C7: after every completed (successful) refresh the derived counts
agree with the stored order list — each of the six per-status counters
equals the number of stored orders with exactly that status and the total
equals the stored list's length.  List and counts are written in the same
step from the same response, so no independently stale combination is
observable. -/
theorem C7_statsConsistentWithOrders :
    ∀ (flag : Bool) (s : DashboardState) (L : List ShippingOrder) (now : Nat),
      (fetchOrders flag s (Except.ok L) now).state.stats.total
          = (fetchOrders flag s (Except.ok L) now).state.orders.length
      ∧ (fetchOrders flag s (Except.ok L) now).state.stats.received
          = ((fetchOrders flag s (Except.ok L) now).state.orders.filter
              (fun o => o.status == "접수완료")).length
      ∧ (fetchOrders flag s (Except.ok L) now).state.stats.preparing
          = ((fetchOrders flag s (Except.ok L) now).state.orders.filter
              (fun o => o.status == "배송준비")).length
      ∧ (fetchOrders flag s (Except.ok L) now).state.stats.inTransit
          = ((fetchOrders flag s (Except.ok L) now).state.orders.filter
              (fun o => o.status == "배송중")).length
      ∧ (fetchOrders flag s (Except.ok L) now).state.stats.delivered
          = ((fetchOrders flag s (Except.ok L) now).state.orders.filter
              (fun o => o.status == "배송완료")).length
      ∧ (fetchOrders flag s (Except.ok L) now).state.stats.cancelled
          = ((fetchOrders flag s (Except.ok L) now).state.orders.filter
              (fun o => o.status == "취소")).length
      ∧ (fetchOrders flag s (Except.ok L) now).state.stats.returned
          = ((fetchOrders flag s (Except.ok L) now).state.orders.filter
              (fun o => o.status == "반송")).length := by
  intro flag s L now
  exact ⟨rfl, rfl, rfl, rfl, rfl, rfl, rfl⟩

/-- Claim C8: `notifyOrderStatusChange` never throws — the status lookup is
total — and for every status string outside the fixed table it uses the
default entry with title 상태 변경, emoji 📋 and severity info, both for
the OS notification (whose title is the emoji-prefixed default title) and
for the toast. -/
theorem C8_unknownStatusUsesDefault :
    ∀ (oi : OrderInfo),
      oi.status ∉ ["접수완료", "배송준비", "배송중", "배송완료", "취소", "반송"] →
      statusInfoFor oi.status
          = { title := "상태 변경", emoji := "📋", color := ToastType.info }
      ∧ (notifyOrderStatusChange oi).2.title = "상태 변경"
      ∧ (notifyOrderStatusChange oi).2.type = ToastType.info
      ∧ (notifyOrderStatusChange oi).1.title = "📋 상태 변경" := by
  intro oi h
  simp only [List.mem_cons, List.not_mem_nil, or_false, not_or] at h
  obtain ⟨h1, h2, h3, h4, h5, h6⟩ := h
  have b1 : (oi.status == "접수완료") = false := beq_eq_false_iff_ne.mpr h1
  have b2 : (oi.status == "배송준비") = false := beq_eq_false_iff_ne.mpr h2
  have b3 : (oi.status == "배송중") = false := beq_eq_false_iff_ne.mpr h3
  have b4 : (oi.status == "배송완료") = false := beq_eq_false_iff_ne.mpr h4
  have b5 : (oi.status == "취소") = false := beq_eq_false_iff_ne.mpr h5
  have b6 : (oi.status == "반송") = false := beq_eq_false_iff_ne.mpr h6
  have hsi : statusInfoFor oi.status
      = { title := "상태 변경", emoji := "📋", color := ToastType.info } := by
    simp [statusInfoFor, statusMessagesTable, List.lookup, b1, b2, b3, b4, b5, b6]
  refine ⟨hsi, ?_, ?_, ?_⟩
  · simp [notifyOrderStatusChange, hsi]
  · simp [notifyOrderStatusChange, hsi]
  · simp [notifyOrderStatusChange, hsi]

/-- Witness for C8 at the status string "unknown-value": the lookup does
not throw and yields the default 상태 변경 / info entry. -/
theorem C8_witness :
    ("unknown-value" ∉ ["접수완료", "배송준비", "배송중", "배송완료", "취소", "반송"])
    ∧ statusInfoFor "unknown-value"
        = { title := "상태 변경", emoji := "📋", color := ToastType.info }
    ∧ (notifyOrderStatusChange
        { orderId := 7, status := "unknown-value" }).2.title = "상태 변경"
    ∧ (notifyOrderStatusChange
        { orderId := 7, status := "unknown-value" }).2.type = ToastType.info := by
  have h := C8_unknownStatusUsesDefault
    { orderId := 7, status := "unknown-value" } (by decide)
  exact ⟨by decide, h.1, h.2.1, h.2.2.1⟩

/-- Claim C9, counterexample: two distinct `showToast` calls that observe
the same millisecond clock reading and the same rendered `Math.random()`
suffix are assigned the same id — the generated ids are not unique for the
process lifetime. -/
theorem C9_counterexample :
    ¬ (toastIdsOf [(1733000000000, "k3j9q0p1z"),
                   (1733000000000, "k3j9q0p1z")]).Pairwise (fun a b => a ≠ b) := by
  intro h
  simp only [toastIdsOf, List.map] at h
  cases h with
  | cons h1 _ => exact h1 _ (List.mem_cons_self _ _) rfl

/-- Claim C9 as amended: the toast id is fully determined by the observed
`(Date.now(), random-suffix)` pair, so two calls receive distinct ids
whenever their clock readings differ and their random suffixes have equal
length (in particular for the usual full nine-character suffixes);
uniqueness is not guaranteed when two calls observe identical pairs. -/
theorem C9_amended_distinctTimestampsGiveDistinctIds :
    ∀ (t1 t2 : Nat) (r1 r2 : String),
      r1.length = r2.length → t1 ≠ t2 → genToastId t1 r1 ≠ genToastId t2 r2 := by
  intro t1 t2 r1 r2 hlen hne h
  apply hne
  have hdata : (natDecimalRepr t1).data ++ r1.data
      = (natDecimalRepr t2).data ++ r2.data := by
    have hd := congrArg String.data h
    simpa [genToastId, String.data_append] using hd
  have hlen' : r1.data.length = r2.data.length := hlen
  have hparts := List.append_inj' hdata hlen'
  exact natDecimalRepr_injective t1 t2 (String.ext hparts.1)

/-- Witness for the amended C9 at clock readings 1 and 2 with equal
nine-character suffixes: the two generated ids differ. -/
theorem C9_amended_witness :
    ("abcdefghi" : String).length = ("abcdefghi" : String).length
    ∧ (1 : Nat) ≠ 2
    ∧ genToastId 1 "abcdefghi" ≠ genToastId 2 "abcdefghi" :=
  ⟨rfl, by decide,
   C9_amended_distinctTimestampsGiveDistinctIds 1 2 "abcdefghi" "abcdefghi" rfl (by decide)⟩

/-- Claim C10: after a successful refresh the stored total is the fetched
list's length while each per-status counter counts only exact matches of
its recognized status string; an order with an unrecognized status (here
파손) is counted in the total but in none of the six counters, so the sum
of the six counters is strictly less than the total — there is no fallback
counter bucket. -/
theorem C10_unrecognizedStatusOnlyInTotal :
    (∀ (flag : Bool) (s : DashboardState) (L : List ShippingOrder) (now : Nat),
      (fetchOrders flag s (Except.ok L) now).state.stats.total = L.length
      ∧ (fetchOrders flag s (Except.ok L) now).state.stats.received
          = (L.filter (fun o => o.status == "접수완료")).length
      ∧ (fetchOrders flag s (Except.ok L) now).state.stats.preparing
          = (L.filter (fun o => o.status == "배송준비")).length
      ∧ (fetchOrders flag s (Except.ok L) now).state.stats.inTransit
          = (L.filter (fun o => o.status == "배송중")).length
      ∧ (fetchOrders flag s (Except.ok L) now).state.stats.delivered
          = (L.filter (fun o => o.status == "배송완료")).length
      ∧ (fetchOrders flag s (Except.ok L) now).state.stats.cancelled
          = (L.filter (fun o => o.status == "취소")).length
      ∧ (fetchOrders flag s (Except.ok L) now).state.stats.returned
          = (L.filter (fun o => o.status == "반송")).length)
    ∧ (let st := (fetchOrders true s0 (Except.ok [oUnknown]) 0).state.stats
       st.received + st.preparing + st.inTransit + st.delivered
         + st.cancelled + st.returned < st.total) := by
  constructor
  · intro flag s L now
    exact ⟨rfl, rfl, rfl, rfl, rfl, rfl, rfl⟩
  · decide

end Fdapp
